import Mathlib

/-!
Shallow embedding of the `wasm-ast` repository's binary-emitter primitives
(`src/emitter/values.rs`) and instruction model (`src/model/instruction.rs`).

Bytes are modelled as `Nat` (a `u8` is a `Nat` below 256), machine integers as
`Nat`/`Int` with explicit `% 2 ^ w` where a Rust cast truncates or wraps, and
the caller-supplied `std::io::Write` sink as an explicit state threaded through
every call.
-/

namespace WasmAst

/-- An I/O error produced by a sink, identified by an abstract code
(modelling `std::io::Error`). -/
structure IoError where
  code : Nat

/-- The distinguished error `std::io::Write::write_all` produces when `write`
accepts zero bytes of a non-empty buffer (`ErrorKind::WriteZero`). -/
def writeZero : IoError := ⟨0⟩

/-- Modelled from the spec: the typed emitter error (`EmitError`, from
`src/emitter/errors.rs`, which is not under `src/`). Spec §7 lists the kinds
`Io`, `MalformedInteger`, `UnexpectedEndOfInput`, `UnknownOpcode`,
`InvalidImmediate`, `LimitExceeded`; `Io` wraps a sink failure and is the
variant produced by the `?` conversion from `std::io::Error`. -/
inductive EmitError where
  | ioError : IoError → EmitError
  | malformedInteger : EmitError
  | unexpectedEndOfInput : EmitError
  | unknownOpcode : EmitError
  | invalidImmediate : EmitError
  | limitExceeded : EmitError

/-- A caller-supplied sink (`O : Write + ?Sized`). `write s buf` returns the
result of `Write::write` — on success the number of bytes accepted, possibly
fewer than `buf.length` — together with the sink's new state. The state is
returned even on failure, since a Rust sink is borrowed mutably and keeps
whatever state the failing call left behind. -/
structure Writer (σ : Type) where
  write : σ → List Nat → Except IoError Nat × σ

/-- The default `Write::write_all` loop: call `write` until the buffer is
drained, fail with `writeZero` if a call accepts zero bytes of a non-empty
buffer, and stop at the first error. (The `ErrorKind::Interrupted` retry branch
is not modelled; none of the sinks considered here produce it.) Returns the
sink state alongside the result so that a caller that drops the `Result` — as
`emit_f32`/`emit_f64` do — still observes the sink's effects. -/
def writeAll (w : Writer σ) (s : σ) (buf : List Nat) : Except IoError Unit × σ :=
  match buf with
  | [] => (Except.ok (), s)
  | b :: rest =>
    match w.write s (b :: rest) with
    | (Except.error e, s') => (Except.error e, s')
    | (Except.ok 0, s') => (Except.error writeZero, s')
    | (Except.ok (n + 1), s') => writeAll w s' (rest.drop n)
termination_by buf.length
decreasing_by
  simp [List.length_drop]
  omega

/-- Modelled from the spec: the unsigned LEB128 byte sequence of a value
(`leb128::encode_unsigned`'s wire output; the `leb128` module is not under
`src/`). Spec §4.1/§6: seven data bits per byte, least-significant group
first, continuation bit set on every byte but the last, minimal length. -/
def leb128Unsigned (n : Nat) : List Nat :=
  if n < 128 then [n] else (128 + n % 128) :: leb128Unsigned (n / 128)
termination_by n
decreasing_by
  exact Nat.div_lt_self (by omega) (by omega)

/-- Modelled from the spec: `leb128::encode_unsigned`, writing the unsigned
LEB128 encoding of `value` to the sink and returning the number of bytes
written, with a sink failure converted to `EmitError.ioError`. -/
def encode_unsigned (w : Writer σ) (value : Nat) (s : σ) :
    Except EmitError (Nat × σ) :=
  match writeAll w s (leb128Unsigned value) with
  | (Except.error e, _) => Except.error (EmitError.ioError e)
  | (Except.ok _, s') => Except.ok ((leb128Unsigned value).length, s')

/-- The `k` little-endian base-256 digits of `n` (the model of
`to_le_bytes` on a `k`-byte integer given by its bit pattern). -/
def toLeBytes : Nat → Nat → List Nat
  | 0, _ => []
  | k + 1, n => n % 256 :: toLeBytes k (n / 256)

/-- `emit_f32` from `src/emitter/values.rs`. The `f32` is represented by its
32-bit pattern, whose `to_le_bytes` is its four little-endian bytes. The
source calls `output.write_all(&bytes);` and DROPS the returned `Result`
(there is no `?`), then returns `Ok(bytes.len())`; the model does the same,
keeping the sink state but discarding the error. -/
def emit_f32 (w : Writer σ) (value : Nat) (s : σ) : Except EmitError (Nat × σ) :=
  let bytes := toLeBytes 4 value
  let s' := (writeAll w s bytes).2
  Except.ok (bytes.length, s')

/-- `emit_f64` from `src/emitter/values.rs`: as `emit_f32` but eight bytes,
again dropping the `write_all` result. -/
def emit_f64 (w : Writer σ) (value : Nat) (s : σ) : Except EmitError (Nat × σ) :=
  let bytes := toLeBytes 8 value
  let s' := (writeAll w s bytes).2
  Except.ok (bytes.length, s')

/-- `emit_byte` from `src/emitter/values.rs`: `output.write(&[byte])?` then
`Ok(1)`. The error is propagated by `?`; the count returned by `write` is
discarded and the buffer length `1` is returned instead. -/
def emit_byte (w : Writer σ) (byte : Nat) (s : σ) : Except EmitError (Nat × σ) :=
  let bytes := [byte]
  match w.write s bytes with
  | (Except.error e, _) => Except.error (EmitError.ioError e)
  | (Except.ok _, s') => Except.ok (bytes.length, s')

/-- `emit_usize` from `src/emitter/values.rs`:
`encode_unsigned(*size.borrow() as u128, output)`. The `usize` value (below
`2 ^ 64` on any supported host) is widened to `u128`; the cast is the
truncation `% 2 ^ 128`. -/
def emit_usize (w : Writer σ) (size : Nat) (s : σ) : Except EmitError (Nat × σ) :=
  encode_unsigned w (size % 2 ^ 128) s

/-- `emit_u32` from `src/emitter/values.rs`: `encode_unsigned(value, output)`
on a `u32` value. -/
def emit_u32 (w : Writer σ) (value : Nat) (s : σ) : Except EmitError (Nat × σ) :=
  encode_unsigned w value s

/-- `emit_u64` from `src/emitter/values.rs`: `encode_unsigned(value, output)`
on a `u64` value. -/
def emit_u64 (w : Writer σ) (value : Nat) (s : σ) : Except EmitError (Nat × σ) :=
  encode_unsigned w value s

/-- `emit_bytes` from `src/emitter/values.rs`: when `include_length` is true,
first `emit_usize(value.len())`, then `write_all(value)?`, returning the
length-prefix byte count plus `value.len()`. -/
def emit_bytes (w : Writer σ) (value : List Nat) (include_length : Bool)
    (s : σ) : Except EmitError (Nat × σ) :=
  match (if include_length then emit_usize w value.length s
         else Except.ok (0, s) : Except EmitError (Nat × σ)) with
  | Except.error e => Except.error e
  | Except.ok (pre, s1) =>
    match writeAll w s1 value with
    | (Except.error e, _) => Except.error (EmitError.ioError e)
    | (Except.ok _, s2) => Except.ok (pre + value.length, s2)

/-- `emit_repeated` from `src/emitter/values.rs`: emit each item in slice
order with the supplied emit function, summing the byte counts and stopping
at the first error. -/
def emit_repeated (emit : I → σ → Except EmitError (Nat × σ)) :
    List I → σ → Except EmitError (Nat × σ)
  | [], s => Except.ok (0, s)
  | item :: rest, s =>
    match emit item s with
    | Except.error e => Except.error e
    | Except.ok (n, s') =>
      match emit_repeated emit rest s' with
      | Except.error e => Except.error e
      | Except.ok (m, s'') => Except.ok (n + m, s'')

/-- `emit_vector` from `src/emitter/values.rs`: `emit_usize(items.len())`
followed by `emit_repeated(items, output, emit)`, summing the two counts. -/
def emit_vector (w : Writer σ) (items : List I)
    (emit : I → σ → Except EmitError (Nat × σ)) (s : σ) :
    Except EmitError (Nat × σ) :=
  match emit_usize w items.length s with
  | Except.error e => Except.error e
  | Except.ok (n1, s1) =>
    match emit_repeated emit items s1 with
    | Except.error e => Except.error e
    | Except.ok (n2, s2) => Except.ok (n1 + n2, s2)

/-- The `Vec<u8>` sink: `Write::write` appends the whole buffer and never
fails. -/
def bufWriter : Writer (List Nat) where
  write s buf := (Except.ok buf.length, s ++ buf)

/-- A sink whose every `write` fails with the given error and leaves the
state unchanged (modelling a broken pipe or full disk). -/
def failWriter (e : IoError) : Writer (List Nat) where
  write s _ := (Except.error e, s)

/-- Modelled from the spec: the value-kind tag set (`src/model`'s flat
enumerations are not under `src/`; spec §1 calls them closed tag sets with no
algorithmic content). Integer kinds. -/
inductive IntegerType where
  | i32
  | i64

/-- Modelled from the spec: floating-point kinds. -/
inductive FloatType where
  | f32
  | f64

/-- Modelled from the spec: number kinds. -/
inductive NumberType where
  | i32
  | i64
  | f32
  | f64

/-- Modelled from the spec: reference kinds. -/
inductive ReferenceType where
  | function
  | external

/-- Modelled from the spec: value kinds (numbers and references). -/
inductive ValueType where
  | i32
  | i64
  | f32
  | f64
  | functionReference
  | externalReference

/-- `SignExtension` from `src/model/instruction.rs`. -/
inductive SignExtension where
  | signed
  | unsigned

/-- `MemoryArgument` from `src/model/instruction.rs`: a `u32` offset and an
`Option<u32>` alignment exponent, exactly as stored by the source struct. -/
structure MemoryArgument where
  offset : Nat
  align : Option Nat

namespace MemoryArgument

/-- `MemoryArgument::new(offset, align)`. -/
def new (offset : Nat) (align : Option Nat) : MemoryArgument :=
  ⟨offset, align⟩

/-- `MemoryArgument::default()`: offset 0, alignment `None`. -/
def default : MemoryArgument :=
  ⟨0, none⟩

/-- `MemoryArgument::default_align(offset)`: the given offset, alignment
`None`. -/
def default_align (offset : Nat) : MemoryArgument :=
  ⟨offset, none⟩

/-- `MemoryArgument::default_offset(align)`: offset 0, alignment
`Some(align)`. -/
def default_offset (align : Nat) : MemoryArgument :=
  ⟨0, some align⟩

/-- `MemoryArgument::offset()` accessor. -/
def getOffset (m : MemoryArgument) : Nat :=
  m.offset

/-- `MemoryArgument::align()` accessor: per the source doc comment, "The
default alignment cannot be computed without a number type. Instead, returns
None when the default alignment is set." -/
def getAlign (m : MemoryArgument) : Option Nat :=
  m.align

end MemoryArgument

set_option maxHeartbeats 1600000 in
/-- `NumericInstruction` from `src/model/instruction.rs`. The constant
variants carry their literal: `u32`/`u64` payloads as `Nat`, and `f32`/`f64`
payloads by their 32 or 64 bit patterns. -/
inductive NumericInstruction where
  | i32Constant : Nat → NumericInstruction
  | i64Constant : Nat → NumericInstruction
  | f32Constant : Nat → NumericInstruction
  | f64Constant : Nat → NumericInstruction
  | countLeadingZeros : IntegerType → NumericInstruction
  | countTrailingZeros : IntegerType → NumericInstruction
  | countOnes : IntegerType → NumericInstruction
  | absoluteValue : FloatType → NumericInstruction
  | negate : FloatType → NumericInstruction
  | squareRoot : FloatType → NumericInstruction
  | ceiling : FloatType → NumericInstruction
  | floor : FloatType → NumericInstruction
  | truncate : FloatType → NumericInstruction
  | nearest : FloatType → NumericInstruction
  | add : NumberType → NumericInstruction
  | subtract : NumberType → NumericInstruction
  | multiply : NumberType → NumericInstruction
  | divideInteger : IntegerType → SignExtension → NumericInstruction
  | divideFloat : FloatType → NumericInstruction
  | remainder : IntegerType → SignExtension → NumericInstruction
  | and : IntegerType → NumericInstruction
  | or : IntegerType → NumericInstruction
  | xor : IntegerType → NumericInstruction
  | shiftLeft : IntegerType → NumericInstruction
  | shiftRight : IntegerType → SignExtension → NumericInstruction
  | rotateLeft : IntegerType → NumericInstruction
  | rotateRight : IntegerType → NumericInstruction
  | minimum : FloatType → NumericInstruction
  | maximum : FloatType → NumericInstruction
  | copySign : FloatType → NumericInstruction
  | equalToZero : IntegerType → NumericInstruction
  | equal : NumberType → NumericInstruction
  | notEqual : NumberType → NumericInstruction
  | lessThanInteger : IntegerType → SignExtension → NumericInstruction
  | lessThanFloat : FloatType → NumericInstruction
  | greaterThanInteger : IntegerType → SignExtension → NumericInstruction
  | greaterThanFloat : FloatType → NumericInstruction
  | lessThanOrEqualToInteger : IntegerType → SignExtension → NumericInstruction
  | lessThanOrEqualToFloat : FloatType → NumericInstruction
  | greaterThanOrEqualToInteger : IntegerType → SignExtension → NumericInstruction
  | greaterThanOrEqualToFloat : FloatType → NumericInstruction
  | extendSigned8 : IntegerType → NumericInstruction
  | extendSigned16 : IntegerType → NumericInstruction
  | extendSigned32 : NumericInstruction
  | wrap : NumericInstruction
  | extendWithSignExtension : SignExtension → NumericInstruction
  | convertAndTruncate : IntegerType → FloatType → SignExtension → NumericInstruction
  | convertAndTruncateWithSaturation : IntegerType → FloatType → SignExtension → NumericInstruction
  | demote : NumericInstruction
  | promote : NumericInstruction
  | convert : FloatType → IntegerType → SignExtension → NumericInstruction
  | reinterpretFloat : IntegerType → FloatType → NumericInstruction
  | reinterpretInteger : FloatType → IntegerType → NumericInstruction

/-- `ReferenceInstruction` from `src/model/instruction.rs`; the function
index is a `u32`. -/
inductive ReferenceInstruction where
  | null : ReferenceType → ReferenceInstruction
  | isNull : ReferenceInstruction
  | function : Nat → ReferenceInstruction

/-- `ParametricInstruction` from `src/model/instruction.rs`. -/
inductive ParametricInstruction where
  | drop : ParametricInstruction
  | select : Option (List ValueType) → ParametricInstruction

/-- `VariableInstruction` from `src/model/instruction.rs`; local and global
indices are `u32`. -/
inductive VariableInstruction where
  | localGet : Nat → VariableInstruction
  | localSet : Nat → VariableInstruction
  | localTee : Nat → VariableInstruction
  | globalGet : Nat → VariableInstruction
  | globalSet : Nat → VariableInstruction

/-- `TableInstruction` from `src/model/instruction.rs`; table and element
indices are `u32`. -/
inductive TableInstruction where
  | get : Nat → TableInstruction
  | set : Nat → TableInstruction
  | size : Nat → TableInstruction
  | grow : Nat → TableInstruction
  | fill : Nat → TableInstruction
  | copy : Nat → Nat → TableInstruction
  | init : Nat → Nat → TableInstruction
  | elementDrop : Nat → TableInstruction

/-- `MemoryInstruction` from `src/model/instruction.rs`. -/
inductive MemoryInstruction where
  | load : NumberType → MemoryArgument → MemoryInstruction
  | store : NumberType → MemoryArgument → MemoryInstruction
  | load8 : IntegerType → SignExtension → MemoryArgument → MemoryInstruction
  | load16 : IntegerType → SignExtension → MemoryArgument → MemoryInstruction
  | load32 : SignExtension → MemoryArgument → MemoryInstruction
  | store8 : IntegerType → MemoryArgument → MemoryInstruction
  | store16 : IntegerType → MemoryArgument → MemoryInstruction
  | store32 : MemoryArgument → MemoryInstruction
  | size : MemoryInstruction
  | grow : MemoryInstruction
  | fill : MemoryInstruction
  | copy : MemoryInstruction
  | init : Nat → MemoryInstruction
  | dataDrop : Nat → MemoryInstruction

/-- `BlockType` from `src/model/instruction.rs`; the type index is a
`u32`. -/
inductive BlockType where
  | none : BlockType
  | index : Nat → BlockType
  | valueType : ValueType → BlockType

mutual

/-- `Instruction` from `src/model/instruction.rs`: the tagged union over the
seven instruction families. -/
inductive Instruction where
  | numeric : NumericInstruction → Instruction
  | reference : ReferenceInstruction → Instruction
  | parametric : ParametricInstruction → Instruction
  | variable' : VariableInstruction → Instruction
  | table : TableInstruction → Instruction
  | memory : MemoryInstruction → Instruction
  | control : ControlInstruction → Instruction

/-- `ControlInstruction` from `src/model/instruction.rs`; label, function,
type and table indices are `u32`. -/
inductive ControlInstruction where
  | nop : ControlInstruction
  | unreachable : ControlInstruction
  | block : BlockType → Expression → ControlInstruction
  | loop : BlockType → Expression → ControlInstruction
  | if' : BlockType → Expression → Option Expression → ControlInstruction
  | branch : Nat → ControlInstruction
  | branchIf : Nat → ControlInstruction
  | branchTable : List Nat → Nat → ControlInstruction
  | return' : ControlInstruction
  | call : Nat → ControlInstruction
  | callIndirect : Nat → Nat → ControlInstruction

/-- `Expression` from `src/model/instruction.rs`: a wrapper around an
ordered sequence of instructions. -/
inductive Expression where
  | new : List Instruction → Expression

end

/-- The Rust cast `value as u32` on a signed source: the low 32 bits of the
two's-complement representation, i.e. `value mod 2 ^ 32` as a natural
number. -/
def intAsU32 (value : Int) : Nat :=
  (value % (2 ^ 32 : Int)).toNat

/-- The Rust cast `value as u64` on a signed source: `value mod 2 ^ 64`. -/
def intAsU64 (value : Int) : Nat :=
  (value % (2 ^ 64 : Int)).toNat

/-- The Rust cast `value as u32` on an unsigned source: truncation to the
low 32 bits. -/
def natAsU32 (value : Nat) : Nat :=
  value % 2 ^ 32

/-- `impl From<i8> for Instruction`: `I32Constant(value as u32)`. -/
def instructionFromI8 (value : Int) : Instruction :=
  Instruction.numeric (NumericInstruction.i32Constant (intAsU32 value))

/-- `impl From<i16> for Instruction`: `I32Constant(value as u32)`. -/
def instructionFromI16 (value : Int) : Instruction :=
  Instruction.numeric (NumericInstruction.i32Constant (intAsU32 value))

/-- `impl From<i32> for Instruction`: `I32Constant(value as u32)`. -/
def instructionFromI32 (value : Int) : Instruction :=
  Instruction.numeric (NumericInstruction.i32Constant (intAsU32 value))

/-- `impl From<i64> for Instruction`: `I64Constant(value as u64)`. -/
def instructionFromI64 (value : Int) : Instruction :=
  Instruction.numeric (NumericInstruction.i64Constant (intAsU64 value))

/-- `impl From<u8> for Instruction`: `I32Constant(value as u32)`; the cast
from `u8` is exact (zero-extension). -/
def instructionFromU8 (value : Nat) : Instruction :=
  Instruction.numeric (NumericInstruction.i32Constant value)

/-- `impl From<u16> for Instruction`: `I32Constant(value as u32)`; the cast
from `u16` is exact (zero-extension). -/
def instructionFromU16 (value : Nat) : Instruction :=
  Instruction.numeric (NumericInstruction.i32Constant value)

/-- `impl From<u32> for Instruction`: `I32Constant(value)`. -/
def instructionFromU32 (value : Nat) : Instruction :=
  Instruction.numeric (NumericInstruction.i32Constant value)

/-- `impl From<u64> for Instruction`: `I64Constant(value)`. -/
def instructionFromU64 (value : Nat) : Instruction :=
  Instruction.numeric (NumericInstruction.i64Constant value)

/-- `impl From<usize> for Instruction`: `I32Constant(value as u32)`; the
cast truncates to the low 32 bits. -/
def instructionFromUsize (value : Nat) : Instruction :=
  Instruction.numeric (NumericInstruction.i32Constant (natAsU32 value))

/-! Helper lemmas about the buffer sink. -/

/-- On the buffer sink, `write_all` appends the whole buffer and succeeds. -/
theorem writeAll_bufWriter (s buf : List Nat) :
    writeAll bufWriter s buf = (Except.ok (), s ++ buf) := by
  cases buf with
  | nil => simp [writeAll]
  | cons b rest =>
    rw [writeAll]
    simp [bufWriter, List.drop_length, writeAll]

/-- On the buffer sink, `emit_byte` appends its byte and reports one byte
written. -/
theorem emit_byte_bufWriter (b : Nat) (s : List Nat) :
    emit_byte bufWriter b s = Except.ok (1, s ++ [b]) := by
  simp [emit_byte, bufWriter]

/-- On the buffer sink, `encode_unsigned` appends the unsigned LEB128
encoding and reports its length. -/
theorem encode_unsigned_bufWriter (n : Nat) (s : List Nat) :
    encode_unsigned bufWriter n s =
      Except.ok ((leb128Unsigned n).length, s ++ leb128Unsigned n) := by
  simp [encode_unsigned, writeAll_bufWriter]

/-- On the buffer sink, `emit_usize` of a host-representable size appends the
unsigned LEB128 encoding of the size. -/
theorem emit_usize_bufWriter (n : Nat) (hn : n < 2 ^ 128) (s : List Nat) :
    emit_usize bufWriter n s =
      Except.ok ((leb128Unsigned n).length, s ++ leb128Unsigned n) := by
  have hmod : n % 2 ^ 128 = n := Nat.mod_eq_of_lt hn
  unfold emit_usize
  rw [hmod, encode_unsigned_bufWriter]

/-- On the buffer sink, an emit function that appends `enc i` for each item
makes `emit_repeated` append the concatenation of the encodings, reporting
the total length. -/
theorem emit_repeated_bufWriter (enc : I → List Nat)
    (emit : I → List Nat → Except EmitError (Nat × List Nat))
    (hemit : ∀ i s, emit i s = Except.ok ((enc i).length, s ++ enc i)) :
    ∀ (items : List I) (s : List Nat),
      emit_repeated emit items s =
        Except.ok ((items.map enc).flatten.length, s ++ (items.map enc).flatten) := by
  intro items
  induction items with
  | nil => intro s; simp [emit_repeated]
  | cons i rest ih =>
    intro s
    simp [emit_repeated, hemit, ih, List.append_assoc]

/-! Claim theorems. -/

/-- C1: the claim says every primitive emit operation returns a sink I/O
error to the caller. `emit_byte` and `emit_bytes` do (they use `?`), but
`emit_f64` (and `emit_f32` alike) drops the `Result` of `write_all` and
returns `Ok(8)` even though every write to the sink failed — the source
contradicts spec §4.3/§7 ("on a sink/source I/O error the codec propagates
the error immediately"). -/
theorem C1_float_emit_swallows_io_error :
    emit_f64 (failWriter ⟨7⟩) 0 [] = Except.ok (8, []) ∧
    writeAll (failWriter ⟨7⟩) [] (toLeBytes 8 0) = (Except.error ⟨7⟩, []) ∧
    emit_byte (failWriter ⟨7⟩) 9 [] = Except.error (EmitError.ioError ⟨7⟩) ∧
    emit_bytes (failWriter ⟨7⟩) [1, 2] false [] = Except.error (EmitError.ioError ⟨7⟩) := by
  refine ⟨?_, ?_, ?_, ?_⟩ <;>
    simp [emit_f64, emit_byte, emit_bytes, writeAll, failWriter, toLeBytes]

/-- C6: the claim says a successful return's byte count equals the bytes
actually written to the sink. `emit_f32` on a sink whose writes fail returns
`Ok(4)` while zero bytes reached the sink (the dropped `write_all` result
again), so the count over-reports. -/
theorem C6_count_over_reports_on_failed_write :
    emit_f32 (failWriter ⟨3⟩) 1065353216 [] = Except.ok (4, []) ∧
    (4 : Nat) ≠ ([] : List Nat).length := by
  constructor
  · simp [emit_f32, writeAll, failWriter, toLeBytes]
  · simp

/-- C5: `emit_f32` writes exactly the four little-endian bytes of the value's
bit pattern and returns 4; `emit_f64` writes the eight little-endian bytes
and returns 8. The statement quantifies over every bit pattern of the
respective width — NaN payloads and all other patterns included, with no
validation. -/
theorem C5_float_emit_le_bytes (b32 b64 : Nat) (s : List Nat)
    (_h32 : b32 < 2 ^ 32) (_h64 : b64 < 2 ^ 64) :
    emit_f32 bufWriter b32 s =
      Except.ok (4, s ++ [b32 % 256, b32 / 256 % 256,
        b32 / 256 ^ 2 % 256, b32 / 256 ^ 3 % 256]) ∧
    emit_f64 bufWriter b64 s =
      Except.ok (8, s ++ [b64 % 256, b64 / 256 % 256,
        b64 / 256 ^ 2 % 256, b64 / 256 ^ 3 % 256, b64 / 256 ^ 4 % 256,
        b64 / 256 ^ 5 % 256, b64 / 256 ^ 6 % 256, b64 / 256 ^ 7 % 256]) := by
  constructor
  · simp [emit_f32, writeAll_bufWriter, toLeBytes, Nat.div_div_eq_div_mul, pow_succ]
  · simp [emit_f64, writeAll_bufWriter, toLeBytes, Nat.div_div_eq_div_mul, pow_succ]

/-- Witness for C5 at the 32-bit NaN payload `0x7FC00001` and the 64-bit
pattern `0x7FF8000000000001`. -/
theorem C5_float_emit_le_bytes_witness :
    emit_f32 bufWriter 2143289345 [] = Except.ok (4, [1, 0, 192, 127]) := by
  have h := C5_float_emit_le_bytes 2143289345 9221120237041090561 []
    (by norm_num) (by norm_num)
  simpa using h.1

/-- C2: for every slice of items and every item encoder (an emit function
that appends each item's encoding and reports its length), `emit_vector`
writes exactly the unsigned LEB128 encoding of the slice length followed by
the item encodings in slice order, and `emit_repeated` writes only the item
encodings in slice order with no count; the returned counts are the lengths
of what was written. -/
theorem C2_vector_and_repeated_framing (enc : I → List Nat)
    (emit : I → List Nat → Except EmitError (Nat × List Nat))
    (hemit : ∀ i s, emit i s = Except.ok ((enc i).length, s ++ enc i))
    (items : List I) (s : List Nat) (hlen : items.length < 2 ^ 64) :
    emit_vector bufWriter items emit s =
      Except.ok ((leb128Unsigned items.length).length + (items.map enc).flatten.length,
        s ++ leb128Unsigned items.length ++ (items.map enc).flatten) ∧
    emit_repeated emit items s =
      Except.ok ((items.map enc).flatten.length, s ++ (items.map enc).flatten) := by
  have hrep := emit_repeated_bufWriter enc emit hemit
  refine ⟨?_, hrep items s⟩
  have husize := emit_usize_bufWriter items.length (by omega) s
  simp [emit_vector, husize, hrep, List.append_assoc]

/-- Witness for C2: three bytes emitted through `emit_byte` produce the
length byte `3` followed by the bytes in order. -/
theorem C2_vector_and_repeated_framing_witness :
    emit_vector bufWriter [1, 2, 3] (emit_byte bufWriter) [] =
      Except.ok (4, [3, 1, 2, 3]) ∧
    emit_repeated (emit_byte bufWriter) [1, 2, 3] [] =
      Except.ok (3, [1, 2, 3]) := by
  have h := C2_vector_and_repeated_framing (fun b => [b]) (emit_byte bufWriter)
    (by intro i s; simpa using emit_byte_bufWriter i s) [1, 2, 3] [] (by norm_num)
  constructor
  · have h1 := h.1
    rw [show leb128Unsigned ([1, 2, 3] : List Nat).length = [3] by
      simp [leb128Unsigned]] at h1
    simpa using h1
  · simpa using h.2

/-- C3: on the byte-buffer sink, `emit_bytes` with `include_length = true`
produces exactly the same output state and byte count as `emit_vector` with
`emit_byte` as the item encoder, and `emit_bytes` with
`include_length = false` coincides with `emit_repeated` with `emit_byte`. -/
theorem C3_emit_bytes_refines_vector (value : List Nat) (s : List Nat) :
    emit_bytes bufWriter value true s =
      emit_vector bufWriter value (emit_byte bufWriter) s ∧
    emit_bytes bufWriter value false s =
      emit_repeated (emit_byte bufWriter) value s := by
  have hrep := emit_repeated_bufWriter (fun b => [b]) (emit_byte bufWriter)
    (by intro i t; simpa using emit_byte_bufWriter i t)
  have hflat : (value.map fun b => [b]).flatten = value := by
    induction value with
    | nil => simp
    | cons b rest ih => simp [ih]
  constructor
  · simp [emit_bytes, emit_vector, emit_usize, encode_unsigned_bufWriter,
      hrep, hflat, writeAll_bufWriter, List.append_assoc]
  · simp [emit_bytes, hrep, hflat, writeAll_bufWriter]

/-- C4: `emit_usize` routes through the unsigned LEB128 path over a `u128`
intermediate, so on every sink and every value representable in 32 bits it
produces exactly the bytes and count of `emit_u32` — the wire format is
independent of the host word size. -/
theorem C4_emit_usize_matches_emit_u32 {σ : Type} (w : Writer σ) (n : Nat)
    (s : σ) (h : n < 2 ^ 32) : emit_usize w n s = emit_u32 w n s := by
  unfold emit_usize emit_u32
  have hmod : n % 2 ^ 128 = n := Nat.mod_eq_of_lt (by omega)
  rw [hmod]

/-- Witness for C4 at the two-byte value 300 on the buffer sink. -/
theorem C4_emit_usize_matches_emit_u32_witness :
    (300 < 2 ^ 32) ∧ emit_usize bufWriter 300 [] = emit_u32 bufWriter 300 [] :=
  ⟨by norm_num, C4_emit_usize_matches_emit_u32 bufWriter 300 [] (by norm_num)⟩

/-- C7 counterexample: the claim says an i64 value that fits in 32 bits is
promoted to the narrowest variant (`I32Constant`). In the source,
`From<i64>` unconditionally builds `I64Constant`: already at `0i64` the
result is `I64Constant(0)`, which is a different `Instruction` from
`I32Constant(0)`. -/
theorem C7_counterexample_from_i64_zero :
    instructionFromI64 0 =
      Instruction.numeric (NumericInstruction.i64Constant 0) ∧
    Instruction.numeric (NumericInstruction.i64Constant 0) ≠
      Instruction.numeric (NumericInstruction.i32Constant 0) := by
  constructor
  · rfl
  · intro h
    simp only [Instruction.numeric.injEq] at h
    exact NumericInstruction.noConfusion h

/-- C7 (amended): the constant variant is selected by the literal's source
type, not by its value. Conversions from the 32-bit-or-narrower types
(`u32`, `usize` truncating) produce `I32Constant`, while `From<i64>` and
`From<u64>` always produce `I64Constant` — even for values representable in
32 bits, whose payload they carry unchanged, and never an `I32Constant`. -/
theorem C7_constant_variant_by_source_type (n : Nat) (hn : n < 2 ^ 32) :
    instructionFromI64 ((n : Int)) =
      Instruction.numeric (NumericInstruction.i64Constant n) ∧
    instructionFromU64 n =
      Instruction.numeric (NumericInstruction.i64Constant n) ∧
    instructionFromU32 n =
      Instruction.numeric (NumericInstruction.i32Constant n) ∧
    instructionFromUsize n =
      Instruction.numeric (NumericInstruction.i32Constant n) ∧
    ∀ m : Nat, instructionFromI64 ((n : Int)) ≠
      Instruction.numeric (NumericInstruction.i32Constant m) := by
  have hcast : intAsU64 ((n : Int)) = n := by
    simp only [intAsU64]
    omega
  refine ⟨?_, rfl, rfl, ?_, ?_⟩
  · simp [instructionFromI64, hcast]
  · simp only [instructionFromUsize, natAsU32]
    congr 2
    omega
  · intro m h
    simp only [instructionFromI64, hcast, Instruction.numeric.injEq] at h
    exact NumericInstruction.noConfusion h

/-- Witness for the amended C7 at the small value 7. -/
theorem C7_constant_variant_by_source_type_witness :
    instructionFromI64 ((7 : Int)) =
      Instruction.numeric (NumericInstruction.i64Constant 7) :=
  (C7_constant_variant_by_source_type 7 (by norm_num)).1

/-- C8 counterexample: the claim says a `MemoryArgument` built without an
alignment carries a width-derived default alignment rather than an
observable "unspecified" state. In the source the struct stores
`align: Option<u32>`; `default()` stores `None` and the public `align()`
accessor returns `None` — not any derived exponent such as `Some(2)` (the
natural alignment of a 4-byte access). -/
theorem C8_counterexample_default_align_observable_none :
    MemoryArgument.default.getAlign = none ∧
    (MemoryArgument.default_align 42).getAlign = none ∧
    MemoryArgument.default.getAlign ≠ some 2 := by
  refine ⟨rfl, rfl, ?_⟩
  intro h
  exact Option.noConfusion h

/-- C8 (amended): a `MemoryArgument` constructed via `default` or
`default_align` stores no alignment, and that unspecified state is
observable at the public interface: `align()` returns `None` (the source
comment notes the width-derived default cannot be computed without a number
type, so it is left to the consumer). `new` and `default_offset` store the
given alignment and `offset()` returns the stored offset. -/
theorem C8_memory_argument_optional_align (off a : Nat) :
    (MemoryArgument.default_align off).getAlign = none ∧
    (MemoryArgument.default_align off).getOffset = off ∧
    MemoryArgument.default.getAlign = none ∧
    MemoryArgument.default.getOffset = 0 ∧
    (MemoryArgument.default_offset a).getAlign = some a ∧
    (MemoryArgument.default_offset a).getOffset = 0 ∧
    (MemoryArgument.new off (some a)).getAlign = some a ∧
    (MemoryArgument.new off (some a)).getOffset = off :=
  ⟨rfl, rfl, rfl, rfl, rfl, rfl, rfl, rfl⟩

/-- C9: `From<usize>` never fails and performs no range validation: for
every host-representable `usize` value `n`, the conversion is total and
yields `Numeric(I32Constant(n mod 2^32))`, silently truncating out-of-range
values. -/
theorem C9_from_usize_truncates (n : Nat) (_h : n < 2 ^ 64) :
    instructionFromUsize n =
      Instruction.numeric (NumericInstruction.i32Constant (n % 2 ^ 32)) := rfl

/-- Witness for C9 at the out-of-range value `2^32 + 5`, which truncates to
5. -/
theorem C9_from_usize_truncates_witness :
    instructionFromUsize (2 ^ 32 + 5) =
      Instruction.numeric (NumericInstruction.i32Constant 5) := by
  have h := C9_from_usize_truncates (2 ^ 32 + 5) (by norm_num)
  simpa using h

/-- C10: `From<i8>`/`From<i16>` produce `I32Constant` carrying the
two's-complement sign-extension of the value to 32 bits (a non-negative
value maps to itself, a negative value `v` to `2^32 + v`), so
`Instruction::from(-1i8)` yields `I32Constant(4294967295)`; `From<u8>` and
`From<u16>` carry the zero-extended (unchanged) value. -/
theorem C10_narrow_conversions_extend (v8 v16 : Int) (n8 n16 : Nat)
    (h8l : -(2 ^ 7) ≤ v8) (h8u : v8 < 2 ^ 7)
    (h16l : -(2 ^ 15) ≤ v16) (h16u : v16 < 2 ^ 15)
    (_hn8 : n8 < 2 ^ 8) (_hn16 : n16 < 2 ^ 16) :
    instructionFromI8 v8 = Instruction.numeric (NumericInstruction.i32Constant
      (if 0 ≤ v8 then v8.toNat else (2 ^ 32 + v8).toNat)) ∧
    instructionFromI16 v16 = Instruction.numeric (NumericInstruction.i32Constant
      (if 0 ≤ v16 then v16.toNat else (2 ^ 32 + v16).toNat)) ∧
    instructionFromI8 (-1) =
      Instruction.numeric (NumericInstruction.i32Constant 4294967295) ∧
    instructionFromU8 n8 =
      Instruction.numeric (NumericInstruction.i32Constant n8) ∧
    instructionFromU16 n16 =
      Instruction.numeric (NumericInstruction.i32Constant n16) := by
  refine ⟨?_, ?_, ?_, rfl, rfl⟩
  · simp only [instructionFromI8, intAsU32]
    congr 2
    split <;> omega
  · simp only [instructionFromI16, intAsU32]
    congr 2
    split <;> omega
  · simp only [instructionFromI8, intAsU32]
    congr 2

/-- Witness for C10 at `-1i8`, `-300i16`, `200u8` and `60000u16`. -/
theorem C10_narrow_conversions_extend_witness :
    instructionFromI8 (-1) =
      Instruction.numeric (NumericInstruction.i32Constant 4294967295) ∧
    instructionFromI16 (-300) =
      Instruction.numeric (NumericInstruction.i32Constant 4294966996) := by
  have h := C10_narrow_conversions_extend (-1) (-300) 200 60000
    (by norm_num) (by norm_num) (by norm_num) (by norm_num)
    (by norm_num) (by norm_num)
  refine ⟨h.2.2.1, ?_⟩
  have h16 := h.2.1
  norm_num at h16
  exact h16

end WasmAst
